import Mathlib

/-!
Shallow embedding of `frontend/rust-lib/flowy-user/src/event_handler.rs`.

Each handler is embedded as a pure function.  The collaborators that live
outside this file of the repository — the `TryInto` payload conversions, the
`UserSession` session manager, the `KV` key-value store and `serde_json` —
are passed in as explicit parameters (oracles): the handler's own control
flow, which is what the claims are about, is translated line by line from
the source.  Each handler returns the ordered list of session-manager calls
it issued (its trace) together with its `Result` value, so ordering and
"zero calls" properties are statements about the trace.
-/

/-- Modelled from the spec: `AuthType` is an enumerated tag
{Local, SelfHosted, ThirdParty(provider)} selecting the credential
verification strategy (the Rust `AuthType` enum lives outside `src/`). -/
inductive AuthType
  | Local
  | SelfHosted
  | ThirdParty (provider : String)
deriving DecidableEq, Repr

/-- Modelled from the spec: error taxonomy of §7 (`FlowyError` itself lives
outside `src/`); payload-to-params conversion failures are validation
errors, profile lookup without a session is `noActiveSession`. -/
inductive FlowyError
  | validationError (code : Nat)
  | authError (code : Nat)
  | storageError (code : Nat)
  | noActiveSession
deriving DecidableEq, Repr

/-- Modelled from the spec: validated sign-in parameter record (email,
credential material, auth-type tag); built only by a fallible conversion. -/
structure SignInParams where
  email : String
  password : String
  auth_type : AuthType
deriving DecidableEq, Repr

/-- Modelled from the spec: validated sign-up parameter record. -/
structure SignUpParams where
  email : String
  name : String
  password : String
  auth_type : AuthType
deriving DecidableEq, Repr

/-- Modelled from the spec: validated update-profile parameter record. -/
structure UpdateUserProfileParams where
  id : Int
  name : Option String
  email : Option String
deriving DecidableEq, Repr

/-- Modelled from the spec: the authoritative post-auth profile record
owned by the session manager. -/
structure UserProfile where
  id : Int
  email : String
  name : String
  auth_type : AuthType
deriving DecidableEq, Repr

/-- Response-shape profile (`UserProfilePB`); the handler only reshapes the
session manager's record into it via `.into()`. -/
structure UserProfilePB where
  id : Int
  email : String
  name : String
  auth_type : AuthType
deriving DecidableEq, Repr

/-- Embedding of the `impl From<UserProfile> for UserProfilePB` conversion
used by `.into()` (field-for-field reshaping). -/
def UserProfilePB.ofProfile (p : UserProfile) : UserProfilePB :=
  ⟨p.id, p.email, p.name, p.auth_type⟩

/-- Modelled from the spec: the session handle returned by
`current_session()`; the handler only reads `user_id` from it. -/
structure Session where
  user_id : Int
deriving DecidableEq, Repr

/-- Modelled from the spec: third-party auth payload with the embedded
auth-type tag and the raw provider map (`ThirdPartyAuthPB`). -/
structure ThirdPartyAuthPB where
  auth_type : AuthType
  map : List (String × String)
deriving DecidableEq, Repr

/-- Modelled from the spec: provider configuration record
(`SupabaseConfiguration`), produced by a fallible conversion from the raw
payload. -/
structure SupabaseConfiguration where
  url : String
  key : String
  jwt_secret : String
deriving DecidableEq, Repr

/-- One call issued by a handler on the `UserSession` session manager,
with the arguments the source passes. -/
inductive SessionCall
  | updateAuthType (a : AuthType)
  | signIn (params : SignInParams) (a : AuthType)
  | signUpTyped (a : AuthType) (params : SignUpParams)
  | signUpMap (a : AuthType) (map : List (String × String))
  | getUserProfile (uid : Int) (refresh : Bool)
  | updateUserProfile (params : UpdateUserProfileParams)
  | saveSupabaseConfig (config : SupabaseConfiguration)
deriving DecidableEq, Repr

/-- Results the external `UserSession` returns for each call; the handlers
are parametric in them since `UserSession` lives outside `src/`. -/
structure SessionOracle where
  signInResult : SignInParams → AuthType → Except FlowyError UserProfile
  signUpResult : AuthType → SignUpParams → Except FlowyError UserProfile
  signUpMapResult : AuthType → List (String × String) → Except FlowyError UserProfile
  getSessionResult : Except FlowyError Session
  getUserProfileResult : Int → Bool → Except FlowyError UserProfile
  updateUserProfileResult : UpdateUserProfileParams → Except FlowyError Unit

/-- Trace of session-manager calls a handler issued, and its returned
`Result`. -/
structure HandlerRun (α : Type) where
  trace : List SessionCall
  result : Except FlowyError α

/-- Embedding of `sign_in`: `data.try_into()?` (conversion result passed
in), then `session.update_auth_type(&auth_type).await`, then
`session.sign_in(BoxAny::new(params), auth_type).await?.into()`. -/
def sign_in (data : Except FlowyError SignInParams) (o : SessionOracle) :
    HandlerRun UserProfilePB :=
  match data with
  | .error e => ⟨[], .error e⟩
  | .ok params =>
    let auth_type := params.auth_type
    ⟨[SessionCall.updateAuthType auth_type, SessionCall.signIn params auth_type],
      (o.signInResult params auth_type).map UserProfilePB.ofProfile⟩

/-- Embedding of `sign_up`: conversion, `update_auth_type`, then
`session.sign_up(auth_type, BoxAny::new(params)).await?`. -/
def sign_up (data : Except FlowyError SignUpParams) (o : SessionOracle) :
    HandlerRun UserProfilePB :=
  match data with
  | .error e => ⟨[], .error e⟩
  | .ok params =>
    let auth_type := params.auth_type
    ⟨[SessionCall.updateAuthType auth_type, SessionCall.signUpTyped auth_type params],
      (o.signUpResult auth_type params).map UserProfilePB.ofProfile⟩

/-- Embedding of `update_user_profile_handler`: conversion, then
`session.update_user_profile(params).await?`. -/
def update_user_profile_handler (data : Except FlowyError UpdateUserProfileParams)
    (o : SessionOracle) : HandlerRun Unit :=
  match data with
  | .error e => ⟨[], .error e⟩
  | .ok params =>
    ⟨[SessionCall.updateUserProfile params], o.updateUserProfileResult params⟩

/-- Embedding of `get_user_profile_handler`: `session.get_session()?` then
`session.get_user_profile(uid, true).await?.into()`. -/
def get_user_profile_handler (o : SessionOracle) : HandlerRun UserProfilePB :=
  match o.getSessionResult with
  | .error e => ⟨[], .error e⟩
  | .ok s =>
    ⟨[SessionCall.getUserProfile s.user_id true],
      (o.getUserProfileResult s.user_id true).map UserProfilePB.ofProfile⟩

/-- Embedding of `third_party_auth_handler`: auth type taken from the
payload's embedded tag, `update_auth_type`, then
`session.sign_up(auth_type, BoxAny::new(params.map)).await?` — the raw map
is handed over as is, with no inspection of its contents. -/
def third_party_auth_handler (data : ThirdPartyAuthPB) (o : SessionOracle) :
    HandlerRun UserProfilePB :=
  let auth_type := data.auth_type
  ⟨[SessionCall.updateAuthType auth_type, SessionCall.signUpMap auth_type data.map],
    (o.signUpMapResult auth_type data.map).map UserProfilePB.ofProfile⟩

/-- Embedding of `set_supabase_config_handler`:
`SupabaseConfiguration::try_from(data)?` (conversion result passed in),
then the infallible `session.save_supabase_config(config)`. -/
def set_supabase_config_handler (data : Except FlowyError SupabaseConfiguration) :
    HandlerRun Unit :=
  match data with
  | .error e => ⟨[], .error e⟩
  | .ok config => ⟨[SessionCall.saveSupabaseConfig config], .ok ()⟩

/-- Mirrors `APPEARANCE_SETTING_CACHE_KEY` in the source. -/
def APPEARANCE_SETTING_CACHE_KEY : String := "appearance_settings"

/-- Modelled from the spec: the defined default theme name
(`APPEARANCE_DEFAULT_THEME` lives outside `src/`); only its identity and
non-emptiness matter here. -/
def APPEARANCE_DEFAULT_THEME : String := "light"

/-- Modelled from the spec: the appearance settings blob with a theme field
(`AppearanceSettingsPB` lives outside `src/`); extra fields stand for the
rest of the record. -/
structure AppearanceSettingsPB where
  theme : String
  font : String
  monospace_font : String
  locale_language : String
deriving DecidableEq, Repr

/-- Modelled from the spec: the default appearance settings record; its
theme is the default theme name. -/
def AppearanceSettingsPB.default : AppearanceSettingsPB :=
  ⟨APPEARANCE_DEFAULT_THEME, "", "", ""⟩

/-- Embedding of `get_appearance_setting`.  The stored blob under the
appearance key (`KV::get_str`) and the `serde_json::from_str`
deserializer are passed in; `None` from the store yields the default, a
failed parse logs and yields the default, and the handler never returns an
error. -/
def get_appearance_setting (kv : Option String)
    (parse : String → Option AppearanceSettingsPB) :
    Except FlowyError AppearanceSettingsPB :=
  match kv with
  | none => .ok AppearanceSettingsPB.default
  | some s =>
    match parse s with
    | some setting => .ok setting
    | none => .ok AppearanceSettingsPB.default

/-- Outcome of one `set_appearance_setting` run: the record handed to
`KV::set_object`, the resulting stored blob, and the handler's `Result`. -/
structure SetAppearanceRun where
  persisted : AppearanceSettingsPB
  store : Option String
  result : Except FlowyError Unit

/-- Embedding of `set_appearance_setting`: if the incoming theme is empty
it is replaced by `APPEARANCE_DEFAULT_THEME`, then
`KV::set_object(APPEARANCE_SETTING_CACHE_KEY, setting)?`.  The serializer
and the outcome of the underlying store write are passed in; on failure
the store keeps its previous blob and the error is surfaced. -/
def set_appearance_setting (data : AppearanceSettingsPB)
    (serialize : AppearanceSettingsPB → String)
    (setOutcome : Except FlowyError Unit)
    (kv : Option String) : SetAppearanceRun :=
  let setting :=
    if data.theme.isEmpty then { data with theme := APPEARANCE_DEFAULT_THEME }
    else data
  match setOutcome with
  | .error e => ⟨setting, kv, .error e⟩
  | .ok _ => ⟨setting, some (serialize setting), .ok ()⟩

/-- Modelled from the spec: the session manager keeps one shared mutable
"active auth type" per session; `update_auth_type` overwrites it and the
verification step of a sign-in/sign-up observes it (§5, §9). -/
def applyCall (st : Option AuthType) (c : SessionCall) : Option AuthType :=
  match c with
  | .updateAuthType a => some a
  | _ => st

/-- Shared active auth type after a trace of session calls runs from
state `st`. -/
def runTrace (st : Option AuthType) (tr : List SessionCall) : Option AuthType :=
  tr.foldl applyCall st

/-- Modelled from the spec: two in-flight requests with call sequences
`ta` and `tb` run against the shared active auth type; a schedule entry
`true` steps request A, `false` steps request B (a step past the end of a
sequence does nothing).  Each executed call is logged for its request
together with the shared active auth type at the moment it runs. -/
def runInterleaving : List Bool → List SessionCall → List SessionCall → Option AuthType →
    List (SessionCall × Option AuthType) × List (SessionCall × Option AuthType)
  | [], _, _, _ => ([], [])
  | true :: sched, [], tb, st => runInterleaving sched [] tb st
  | true :: sched, c :: ta, tb, st =>
    ((c, st) :: (runInterleaving sched ta tb (applyCall st c)).fst,
      (runInterleaving sched ta tb (applyCall st c)).snd)
  | false :: sched, ta, [], st => runInterleaving sched ta [] st
  | false :: sched, ta, c :: tb, st =>
    ((runInterleaving sched ta tb (applyCall st c)).fst,
      (c, st) :: (runInterleaving sched ta tb (applyCall st c)).snd)

/-- Shared auth-type values one request's (typed) sign-in verification
calls observed during an interleaved run. -/
def signInObservations (log : List (SessionCall × Option AuthType)) :
    List (Option AuthType) :=
  log.filterMap (fun e =>
    match e.fst with
    | .signIn _ _ => some e.snd
    | _ => none)

/-- Concrete session-manager behaviour used to instantiate theorems at
closed inputs: every fallible call fails and there is no active session. -/
def oracleStub : SessionOracle where
  signInResult := fun _ _ => .error (.authError 7)
  signUpResult := fun _ _ => .error (.authError 7)
  signUpMapResult := fun _ _ => .error (.authError 7)
  getSessionResult := .error .noActiveSession
  getUserProfileResult := fun _ _ => .error .noActiveSession
  updateUserProfileResult := fun _ => .error (.authError 7)

/-- Concrete local-auth sign-in parameters. -/
def pLocal : SignInParams := ⟨"a@x.io", "pw1", .Local⟩

/-- Concrete third-party sign-in parameters (provider `Y`). -/
def pThird : SignInParams := ⟨"b@x.io", "pw2", .ThirdParty "Y"⟩

/-- Claim C1: a sign-in, sign-up or update-profile payload whose conversion
to params fails makes the handler return that validation error with an
empty session-manager trace: no auth-type update and no
sign-in/sign-up/update call is issued. -/
theorem malformed_payload_no_session_calls (c : Nat) (o : SessionOracle) :
    sign_in (.error (.validationError c)) o
      = ⟨[], .error (.validationError c)⟩
    ∧ sign_up (.error (.validationError c)) o
      = ⟨[], .error (.validationError c)⟩
    ∧ update_user_profile_handler (.error (.validationError c)) o
      = ⟨[], .error (.validationError c)⟩ :=
  ⟨rfl, rfl, rfl⟩

/-- Claim C2: for every validated sign-in or sign-up payload the trace
contains the `update_auth_type` call, with the auth type taken from the
validated params, strictly before the dependent sign-in/sign-up call. -/
theorem auth_type_update_before_sign_in (p : SignInParams) (q : SignUpParams)
    (o : SessionOracle) :
    (∃ l₁ l₂ l₃, (sign_in (.ok p) o).trace
        = l₁ ++ SessionCall.updateAuthType p.auth_type
          :: l₂ ++ SessionCall.signIn p p.auth_type :: l₃)
    ∧ (∃ l₁ l₂ l₃, (sign_up (.ok q) o).trace
        = l₁ ++ SessionCall.updateAuthType q.auth_type
          :: l₂ ++ SessionCall.signUpTyped q.auth_type q :: l₃) :=
  ⟨⟨[], [], [], rfl⟩, ⟨[], [], [], rfl⟩⟩

/-- Claim C8: `set_supabase_config_handler` fails exactly when the
raw-to-config conversion fails (surfacing that error, saving nothing);
on a successful conversion the configuration is saved and the handler
always returns success. -/
theorem set_supabase_config_error_iff_conversion (e : FlowyError)
    (config : SupabaseConfiguration) :
    set_supabase_config_handler (.error e) = ⟨[], .error e⟩
    ∧ set_supabase_config_handler (.ok config)
      = ⟨[SessionCall.saveSupabaseConfig config], .ok ()⟩ :=
  ⟨rfl, rfl⟩

/-- Claim C4: for a third-party payload whose embedded tag is
`ThirdParty x`, the handler's first session call propagates auth type
`ThirdParty x` and the second is the sign-up call carrying exactly
`ThirdParty x` and the payload's raw map unmodified; no check of the map
precedes the call, its result being handed straight to the session
manager. -/
theorem third_party_auth_propagates_tag (x : String) (d : ThirdPartyAuthPB)
    (o : SessionOracle) (h : d.auth_type = .ThirdParty x) :
    (third_party_auth_handler d o).trace
      = [SessionCall.updateAuthType (.ThirdParty x),
         SessionCall.signUpMap (.ThirdParty x) d.map]
    ∧ (third_party_auth_handler d o).result
      = (o.signUpMapResult (.ThirdParty x) d.map).map UserProfilePB.ofProfile := by
  constructor
  · simp [third_party_auth_handler, h]
  · simp [third_party_auth_handler, h]

/-- Witness for C4 at a concrete payload. -/
theorem third_party_auth_propagates_tag_witness :
    (third_party_auth_handler ⟨.ThirdParty "g", [("token", "t1")]⟩ oracleStub).trace
      = [SessionCall.updateAuthType (.ThirdParty "g"),
         SessionCall.signUpMap (.ThirdParty "g") [("token", "t1")]]
    ∧ (third_party_auth_handler ⟨.ThirdParty "g", [("token", "t1")]⟩ oracleStub).result
      = (oracleStub.signUpMapResult (.ThirdParty "g") [("token", "t1")]).map
          UserProfilePB.ofProfile :=
  third_party_auth_propagates_tag "g" ⟨.ThirdParty "g", [("token", "t1")]⟩ oracleStub rfl

/-- Claim C7: when the current-session lookup fails with
`noActiveSession`, `get_user_profile_handler` returns that error and
issues no `get_user_profile` call (its trace is empty). -/
theorem no_session_no_profile_call (o : SessionOracle)
    (h : o.getSessionResult = .error .noActiveSession) :
    get_user_profile_handler o = ⟨[], .error .noActiveSession⟩ := by
  simp [get_user_profile_handler, h]

/-- Witness for C7 at the concrete stub session manager. -/
theorem no_session_no_profile_call_witness :
    get_user_profile_handler oracleStub = ⟨[], .error .noActiveSession⟩ :=
  no_session_no_profile_call oracleStub rfl

/-- Claim C9: when the payload validates but the session manager rejects
the sign-in/sign-up, the handler returns that error while the shared
active auth type, replayed from the handler's trace, has already been set
to the request's auth type from any starting state — the error return
does not roll it back. -/
theorem failed_sign_in_keeps_auth_type (p : SignInParams) (q : SignUpParams)
    (o : SessionOracle) (e e' : FlowyError) (st : Option AuthType)
    (h1 : o.signInResult p p.auth_type = .error e)
    (h2 : o.signUpResult q.auth_type q = .error e') :
    (sign_in (.ok p) o).result = .error e
    ∧ runTrace st (sign_in (.ok p) o).trace = some p.auth_type
    ∧ (sign_up (.ok q) o).result = .error e'
    ∧ runTrace st (sign_up (.ok q) o).trace = some q.auth_type := by
  refine ⟨?_, ?_, ?_, ?_⟩
  · simp [sign_in, h1, Except.map]
  · simp [sign_in, runTrace, applyCall]
  · simp [sign_up, h2, Except.map]
  · simp [sign_up, runTrace, applyCall]

/-- Witness for C9 at concrete rejected requests. -/
theorem failed_sign_in_keeps_auth_type_witness :
    (sign_in (.ok pLocal) oracleStub).result = .error (.authError 7)
    ∧ runTrace none (sign_in (.ok pLocal) oracleStub).trace = some .Local
    ∧ (sign_up (.ok ⟨"a@x.io", "n", "pw1", .SelfHosted⟩) oracleStub).result
      = .error (.authError 7)
    ∧ runTrace none (sign_up (.ok ⟨"a@x.io", "n", "pw1", .SelfHosted⟩) oracleStub).trace
      = some .SelfHosted :=
  failed_sign_in_keeps_auth_type pLocal ⟨"a@x.io", "n", "pw1", .SelfHosted⟩
    oracleStub (.authError 7) (.authError 7) none rfl rfl

/-- Claim C5: `get_appearance_setting` returns a success for every store
state; an absent key yields the default record, and a stored blob the
deserializer rejects also yields the default record instead of surfacing
the parse failure. -/
theorem get_appearance_setting_never_errors (kv : Option String)
    (parse : String → Option AppearanceSettingsPB) :
    (∃ v, get_appearance_setting kv parse = .ok v)
    ∧ (kv = none →
        get_appearance_setting kv parse = .ok AppearanceSettingsPB.default)
    ∧ (∀ s, kv = some s → parse s = none →
        get_appearance_setting kv parse = .ok AppearanceSettingsPB.default) := by
  refine ⟨?_, ?_, ?_⟩
  · cases kv with
    | none => exact ⟨AppearanceSettingsPB.default, rfl⟩
    | some s =>
      cases hp : parse s with
      | none => exact ⟨AppearanceSettingsPB.default, by simp [get_appearance_setting, hp]⟩
      | some v => exact ⟨v, by simp [get_appearance_setting, hp]⟩
  · intro h
    simp [get_appearance_setting, h]
  · intro s hs hp
    simp [get_appearance_setting, hs, hp]

/-- Witness for C5: an unparseable blob under the appearance key yields the
default record. -/
theorem get_appearance_setting_never_errors_witness :
    get_appearance_setting (some "not-json") (fun _ => none)
      = .ok AppearanceSettingsPB.default :=
  (get_appearance_setting_never_errors (some "not-json") (fun _ => none)).2.2
    "not-json" rfl rfl

/-- Claim C6: for every record written, a failing store write surfaces its
error to the caller; a record whose theme is empty is persisted with the
default theme name instead; and after a successful write of an empty-theme
record, a read-back through a deserializer that inverts the serializer
yields the default theme, which is not the empty string. -/
theorem set_appearance_setting_normalizes_empty_theme
    (data : AppearanceSettingsPB)
    (serialize : AppearanceSettingsPB → String)
    (parse : String → Option AppearanceSettingsPB)
    (kv : Option String) (e : FlowyError) :
    (set_appearance_setting data serialize (.error e) kv).result = .error e
    ∧ (data.theme = "" →
        (set_appearance_setting data serialize (.ok ()) kv).persisted
          = { data with theme := APPEARANCE_DEFAULT_THEME })
    ∧ (data.theme = "" →
        parse (serialize { data with theme := APPEARANCE_DEFAULT_THEME })
          = some { data with theme := APPEARANCE_DEFAULT_THEME } →
        get_appearance_setting
            (set_appearance_setting data serialize (.ok ()) kv).store parse
          = .ok { data with theme := APPEARANCE_DEFAULT_THEME })
    ∧ APPEARANCE_DEFAULT_THEME ≠ "" := by
  refine ⟨?_, ?_, ?_, ?_⟩
  · rfl
  · intro hempty
    have hb : data.theme.isEmpty = true := by
      simp [String.isEmpty_iff, hempty]
    simp [set_appearance_setting, hb]
  · intro hempty hrt
    have hb : data.theme.isEmpty = true := by
      simp [String.isEmpty_iff, hempty]
    simp [set_appearance_setting, get_appearance_setting, hb, hrt]
  · decide

/-- Witness for C6: a store failure is surfaced for a concrete record, and
the empty-theme and round-trip hypotheses are discharged at a concrete
empty-theme record with a codec that inverts on the normalized record. -/
theorem set_appearance_setting_normalizes_empty_theme_witness :
    (set_appearance_setting ⟨"", "f", "m", "l"⟩ (fun _ => "blob")
        (.error (.storageError 3)) none).result = .error (.storageError 3)
    ∧ (set_appearance_setting ⟨"", "f", "m", "l"⟩ (fun _ => "blob")
        (.ok ()) none).persisted
      = ⟨APPEARANCE_DEFAULT_THEME, "f", "m", "l"⟩
    ∧ get_appearance_setting
        (set_appearance_setting ⟨"", "f", "m", "l"⟩ (fun _ => "blob")
          (.ok ()) none).store
        (fun _ => some ⟨APPEARANCE_DEFAULT_THEME, "f", "m", "l"⟩)
      = .ok ⟨APPEARANCE_DEFAULT_THEME, "f", "m", "l"⟩
    ∧ APPEARANCE_DEFAULT_THEME ≠ "" := by
  obtain ⟨h1, h2, h3, h4⟩ :=
    set_appearance_setting_normalizes_empty_theme ⟨"", "f", "m", "l"⟩
      (fun _ => "blob") (fun _ => some ⟨APPEARANCE_DEFAULT_THEME, "f", "m", "l"⟩)
      none (.storageError 3)
  exact ⟨h1, h2 rfl, h3 rfl rfl, h4⟩

/-- Claim C10: the record `set_appearance_setting` hands to the store
differs from its input at most in the theme field: every other field is
persisted exactly as received, a non-empty theme is persisted unchanged,
and an empty theme is the only case that is rewritten. -/
theorem set_appearance_setting_frame (data : AppearanceSettingsPB)
    (serialize : AppearanceSettingsPB → String)
    (outcome : Except FlowyError Unit) (kv : Option String) :
    (set_appearance_setting data serialize outcome kv).persisted.font = data.font
    ∧ (set_appearance_setting data serialize outcome kv).persisted.monospace_font
      = data.monospace_font
    ∧ (set_appearance_setting data serialize outcome kv).persisted.locale_language
      = data.locale_language
    ∧ (data.theme ≠ "" →
        (set_appearance_setting data serialize outcome kv).persisted = data)
    ∧ (data.theme = "" →
        (set_appearance_setting data serialize outcome kv).persisted
          = { data with theme := APPEARANCE_DEFAULT_THEME }) := by
  have hper : (set_appearance_setting data serialize outcome kv).persisted
      = if data.theme.isEmpty then { data with theme := APPEARANCE_DEFAULT_THEME }
        else data := by
    cases outcome <;> rfl
  refine ⟨?_, ?_, ?_, ?_, ?_⟩ <;> rw [hper]
  · split <;> rfl
  · split <;> rfl
  · split <;> rfl
  · intro h
    rw [if_neg]
    simp [String.isEmpty_iff, h]
  · intro h
    rw [if_pos]
    simp [String.isEmpty_iff, h]

/-- Witness for C10 at a concrete record with a non-empty theme. -/
theorem set_appearance_setting_frame_witness :
    (set_appearance_setting ⟨"dark", "f2", "m2", "l2"⟩ (fun _ => "blob")
        (.ok ()) none).persisted = ⟨"dark", "f2", "m2", "l2"⟩ :=
  (set_appearance_setting_frame ⟨"dark", "f2", "m2", "l2"⟩ (fun _ => "blob")
    (.ok ()) none).2.2.2.1 (by decide)

/-- Every call logged for request A in an interleaved run is one of A's own
calls. -/
theorem runInterleaving_fst_calls (sched : List Bool) :
    ∀ (ta tb : List SessionCall) (st : Option AuthType)
      (e : SessionCall × Option AuthType),
      e ∈ (runInterleaving sched ta tb st).fst → e.fst ∈ ta := by
  induction sched with
  | nil =>
    intro ta tb st e h
    simp [runInterleaving] at h
  | cons b sched ih =>
    intro ta tb st e h
    cases b with
    | true =>
      cases ta with
      | nil =>
        have := ih [] tb st e (by simpa [runInterleaving] using h)
        simp at this
      | cons c ta =>
        simp only [runInterleaving, List.mem_cons] at h
        rcases h with h | h
        · subst h
          exact List.mem_cons_self _ _
        · exact List.mem_cons_of_mem _ (ih ta tb (applyCall st c) e h)
    | false =>
      cases tb with
      | nil => exact ih ta [] st e (by simpa [runInterleaving] using h)
      | cons c tb =>
        exact ih ta tb (applyCall st c) e (by simpa [runInterleaving] using h)

/-- Every call logged for request B in an interleaved run is one of B's own
calls. -/
theorem runInterleaving_snd_calls (sched : List Bool) :
    ∀ (ta tb : List SessionCall) (st : Option AuthType)
      (e : SessionCall × Option AuthType),
      e ∈ (runInterleaving sched ta tb st).snd → e.fst ∈ tb := by
  induction sched with
  | nil =>
    intro ta tb st e h
    simp [runInterleaving] at h
  | cons b sched ih =>
    intro ta tb st e h
    cases b with
    | true =>
      cases ta with
      | nil => exact ih [] tb st e (by simpa [runInterleaving] using h)
      | cons c ta =>
        exact ih ta tb (applyCall st c) e (by simpa [runInterleaving] using h)
    | false =>
      cases tb with
      | nil =>
        have := ih ta [] st e (by simpa [runInterleaving] using h)
        simp at this
      | cons c tb =>
        simp only [runInterleaving, List.mem_cons] at h
        rcases h with h | h
        · subst h
          exact List.mem_cons_self _ _
        · exact List.mem_cons_of_mem _ (ih ta tb (applyCall st c) e h)

/-- Claim C3, counterexample: a Local sign-in (request A) and a
`ThirdParty "Y"` sign-in (request B) run concurrently; under the schedule
A-update, B-update, A-sign-in, B-sign-in, the shared active auth type that
request A's verification call observes is `ThirdParty "Y"`, not A's own
`Local` — the claim's no-leak property fails for this interleaving. -/
theorem concurrent_sign_in_leak :
    signInObservations
        (runInterleaving [true, false, true, false]
          (sign_in (.ok pLocal) oracleStub).trace
          (sign_in (.ok pThird) oracleStub).trace none).fst
      = [some (AuthType.ThirdParty "Y")]
    ∧ ¬ ∀ v ∈ signInObservations
          (runInterleaving [true, false, true, false]
            (sign_in (.ok pLocal) oracleStub).trace
            (sign_in (.ok pThird) oracleStub).trace none).fst,
        v = some pLocal.auth_type := by
  constructor
  · rfl
  · decide

/-- Claim C3, amended: under every interleaving of two concurrent sign-in
requests, each request's sign-in call carries its own validated params and
its own auth-type value as explicit per-call arguments (provider selection
never leaks into the call's arguments); only the shared mutable active
auth type can, as the counterexample shows, hold the other request's value
at that moment. -/
theorem concurrent_sign_in_argument_isolation
    (sched : List Bool) (pA pB : SignInParams) (oA oB : SessionOracle)
    (st : Option AuthType) (e : SessionCall × Option AuthType)
    (q : SignInParams) (a : AuthType) :
    (e ∈ (runInterleaving sched (sign_in (.ok pA) oA).trace
        (sign_in (.ok pB) oB).trace st).fst →
      e.fst = .signIn q a → q = pA ∧ a = pA.auth_type)
    ∧ (e ∈ (runInterleaving sched (sign_in (.ok pA) oA).trace
        (sign_in (.ok pB) oB).trace st).snd →
      e.fst = .signIn q a → q = pB ∧ a = pB.auth_type) := by
  constructor
  · intro hm hc
    have h1 : e.fst ∈ (sign_in (.ok pA) oA).trace :=
      runInterleaving_fst_calls sched _ _ st e hm
    rw [hc] at h1
    simpa [sign_in] using h1
  · intro hm hc
    have h1 : e.fst ∈ (sign_in (.ok pB) oB).trace :=
      runInterleaving_snd_calls sched _ _ st e hm
    rw [hc] at h1
    simpa [sign_in] using h1

/-- Witness for the amended C3 at a concrete schedule where request A's
sign-in call is executed. -/
theorem concurrent_sign_in_argument_isolation_witness :
    pLocal = pLocal ∧ AuthType.Local = pLocal.auth_type :=
  (concurrent_sign_in_argument_isolation [true, true] pLocal pThird
    oracleStub oracleStub none
    (SessionCall.signIn pLocal .Local, some .Local) pLocal .Local).1
    (by decide) rfl
